import Mathlib

/-!
Verification of the validated value types of the lnm-sdk REST models:
the `ClientId` bounded-length identifier (`client_id.rs`) and the
validation error enumerations (`error.rs`).

Rust `String` is modelled as Lean `String`; Rust `String::len()` is the
length of the UTF-8 encoding in bytes, modelled by `String.utf8ByteSize`.
Fallible constructors (`TryFrom`) are modelled with `Except`.
-/

/-- The `ClientIdValidationError` enum from `error.rs`: `TooShort { len: usize }`
and `TooLong { len: usize }`. -/
inductive ClientIdValidationError where
  | TooShort (len : ℕ)
  | TooLong (len : ℕ)
  deriving DecidableEq

/-- The `ClientId(String)` newtype from `client_id.rs`: a wrapper around the raw
string. The derived `PartialEq`/`Eq` are structural, which the `DecidableEq`
derivation mirrors. -/
structure ClientId where
  val : String
  deriving DecidableEq

/-- `ClientId::MIN_LEN`: the minimum allowed length (1). -/
def ClientId.MIN_LEN : ℕ := 1

/-- `ClientId::MAX_LEN`: the maximum allowed length (64). -/
def ClientId.MAX_LEN : ℕ := 64

/-- Rust `String::len()`: the number of bytes of the string's UTF-8 encoding. -/
def rustStrLen (s : String) : ℕ := s.utf8ByteSize

/-- `impl TryFrom<String> for ClientId`: reject with `TooShort { len }` when
`value.len() < MIN_LEN`, with `TooLong { len }` when `value.len() > MAX_LEN`,
otherwise wrap the string. -/
def ClientId.try_from (value : String) : Except ClientIdValidationError ClientId :=
  if rustStrLen value < ClientId.MIN_LEN then
    .error (.TooShort (rustStrLen value))
  else if rustStrLen value > ClientId.MAX_LEN then
    .error (.TooLong (rustStrLen value))
  else
    .ok ⟨value⟩

/-- Rust `str::to_string()`: produces an owned `String` with the same text. -/
def strToString (s : String) : String := s

/-- `impl TryFrom<&str> for ClientId`: `Self::try_from(value.to_string())`. -/
def ClientId.try_from_str (value : String) : Except ClientIdValidationError ClientId :=
  ClientId.try_from (strToString value)

/-- `ClientId::as_str`: borrowed view of the wrapped string. -/
def ClientId.as_str (c : ClientId) : String := c.val

/-- `ClientId::into_inner`: consumes the `ClientId`, returning the inner string. -/
def ClientId.into_inner (c : ClientId) : String := c.val

/-- `impl From<ClientId> for String`: returns the wrapped string. -/
def stringFromClientId (c : ClientId) : String := c.val

/-- The `Display` text generated by `thiserror` for `ClientIdValidationError`,
interpolating the `MIN_LEN` / `MAX_LEN` constants and the offending length. -/
def ClientIdValidationError.message : ClientIdValidationError → String
  | .TooShort len =>
      "Client ID must be at least " ++ toString ClientId.MIN_LEN ++
        " character(s). Length: " ++ toString len
  | .TooLong len =>
      "Client ID must be at most " ++ toString ClientId.MAX_LEN ++
        " characters. Length: " ++ toString len

/-- The fragment of the serde data model the code inspects: a deserializer hands
over either a plain string value or something that is not a string. -/
inductive SerdeValue where
  | str (s : String)
  | other
  deriving DecidableEq

/-- Serde deserialization errors: a framework-level type mismatch, or a
`de::Error::custom` message (the channel `ClientId`'s deserializer uses). -/
inductive DeserializeError where
  | invalidType
  | custom (msg : String)
  deriving DecidableEq

/-- `serde::Serialize` for `String`: serializes as a bare string value
(`serialize_str`), with no wrapper envelope. -/
def serializeString (s : String) : SerdeValue := .str s

/-- `String::deserialize`: accepts a plain string value and rejects any
non-string value with a framework error. -/
def deserializeString : SerdeValue → Except DeserializeError String
  | .str s => .ok s
  | .other => .error .invalidType

/-- `impl Serialize for ClientId`: `serializer.serialize_str(&self.0)`. -/
def ClientId.serialize (c : ClientId) : SerdeValue := .str c.val

/-- `impl Deserialize for ClientId`: first `String::deserialize`, then
`ClientId::try_from(s)` with errors mapped through `de::Error::custom` carrying
the validation error's `Display` text. -/
def ClientId.deserialize (v : SerdeValue) : Except DeserializeError ClientId :=
  match deserializeString v with
  | .error e => .error e
  | .ok s =>
      match ClientId.try_from s with
      | .ok c => .ok c
      | .error e => .error (.custom e.message)

/-- The `CrossLeverageValidationError` enum from `error.rs`:
`TooLow { value: u64 }`, `TooHigh { value: u64 }`, `NotAnInteger { value: f64 }`.
The `u64` payloads are modelled as ℕ and the `f64` payload as an exact ℚ. -/
inductive CrossLeverageValidationError where
  | TooLow (value : ℕ)
  | TooHigh (value : ℕ)
  | NotAnInteger (value : ℚ)
  deriving DecidableEq

/-- Modelled from the spec: the `CrossLeverage` type itself — its `MIN`/`MAX`
constants and its fallible constructor from a floating-point number — is not
among the provided sources; only its error enum `CrossLeverageValidationError`
is. Following spec §4.2, `fromNumber` first checks that the input is
representable as an unsigned integer with no fractional remainder, failing with
`NotAnInteger { value }`, and only then checks the range, failing with
`TooLow { value }` / `TooHigh { value }`. Floating-point inputs are modelled as
exact rationals, the unsigned-integer result as ℕ, and `MIN`/`MAX` are
parameters because the spec does not fix their numeric values. -/
def CrossLeverage.fromNumber (MIN MAX : ℕ) (v : ℚ) : Except CrossLeverageValidationError ℕ :=
  if v.den = 1 ∧ 0 ≤ v.num then
    if v.num.toNat < MIN then .error (.TooLow v.num.toNat)
    else if v.num.toNat > MAX then .error (.TooHigh v.num.toNat)
    else .ok v.num.toNat
  else .error (.NotAnInteger v)

/-- Characterisation of successful `ClientId` construction: `try_from` returns
`ok c` exactly when the byte length is within bounds and `c` wraps the input. -/
theorem ClientId.try_from_ok_iff (s : String) (c : ClientId) :
    ClientId.try_from s = .ok c ↔
      ClientId.MIN_LEN ≤ rustStrLen s ∧ rustStrLen s ≤ ClientId.MAX_LEN ∧ c = ⟨s⟩ := by
  unfold ClientId.try_from
  split_ifs with h1 h2
  · constructor
    · intro h; cases h
    · intro h; omega
  · constructor
    · intro h; cases h
    · intro h; omega
  · constructor
    · intro h
      injection h with h
      exact ⟨by omega, by omega, h.symm⟩
    · intro h
      rw [h.2.2]

/-- Characterisation of the `TooShort` failure of `ClientId` construction. -/
theorem ClientId.try_from_tooShort_iff (s : String) (n : ℕ) :
    ClientId.try_from s = .error (.TooShort n) ↔
      rustStrLen s < ClientId.MIN_LEN ∧ n = rustStrLen s := by
  unfold ClientId.try_from ClientId.MIN_LEN ClientId.MAX_LEN
  split_ifs with h1 h2
  · constructor
    · intro h; injection h with h; injection h with h; exact ⟨h1, h.symm⟩
    · intro h; rw [h.2]
  · constructor
    · intro h; injection h with h; cases h
    · intro h; omega
  · constructor
    · intro h; cases h
    · intro h; omega

/-- Characterisation of the `TooLong` failure of `ClientId` construction. -/
theorem ClientId.try_from_tooLong_iff (s : String) (n : ℕ) :
    ClientId.try_from s = .error (.TooLong n) ↔
      ClientId.MAX_LEN < rustStrLen s ∧ n = rustStrLen s := by
  unfold ClientId.try_from ClientId.MIN_LEN ClientId.MAX_LEN
  split_ifs with h1 h2
  · constructor
    · intro h; injection h with h; cases h
    · intro h; omega
  · constructor
    · intro h; injection h with h; injection h with h; exact ⟨h2, h.symm⟩
    · intro h; rw [h.2]
  · constructor
    · intro h; cases h
    · intro h; omega

/-- C1: for every input string of (byte) length `L`, `ClientId` construction via
`TryFrom<String>` succeeds exactly when `1 ≤ L ≤ 64`; it fails with
`TooShort { len := L }` when `L < 1` and with `TooLong { len := L }` when
`L > 64`, the error's `len` field being the input's length. -/
theorem C1_try_from_length_bounds (s : String) :
    ((∃ c, ClientId.try_from s = .ok c) ↔ 1 ≤ rustStrLen s ∧ rustStrLen s ≤ 64) ∧
    (rustStrLen s < 1 → ClientId.try_from s = .error (.TooShort (rustStrLen s))) ∧
    (rustStrLen s > 64 → ClientId.try_from s = .error (.TooLong (rustStrLen s))) := by
  refine ⟨⟨fun ⟨c, hc⟩ => ?_, fun h => ?_⟩, fun h => ?_, fun h => ?_⟩
  · have := (ClientId.try_from_ok_iff s c).mp hc
    exact ⟨this.1, this.2.1⟩
  · exact ⟨⟨s⟩, (ClientId.try_from_ok_iff s ⟨s⟩).mpr ⟨h.1, h.2, rfl⟩⟩
  · exact (ClientId.try_from_tooShort_iff s (rustStrLen s)).mpr ⟨h, rfl⟩
  · exact (ClientId.try_from_tooLong_iff s (rustStrLen s)).mpr ⟨h, rfl⟩

/-- Witness for C1: the empty string is rejected as `TooShort` with `len = 0`,
`"a"` is accepted, and 65 copies of `'a'` are rejected as `TooLong` with
`len = 65`. -/
theorem C1_witness :
    ClientId.try_from "" = .error (.TooShort 0) ∧
    (∃ c, ClientId.try_from "a" = .ok c) ∧
    ClientId.try_from (String.mk (List.replicate 65 'a')) = .error (.TooLong 65) :=
  ⟨(C1_try_from_length_bounds "").2.1 (by decide),
   (C1_try_from_length_bounds "a").1.mpr (by decide),
   (C1_try_from_length_bounds (String.mk (List.replicate 65 'a'))).2.2 (by decide)⟩

/-- C2 counterexample: the string of 33 copies of `'é'` has 33 characters — so
`1 ≤ length ≤ 64` when length is counted in characters — yet its UTF-8 encoding
is 66 bytes, and construction rejects it, refuting the claim that construction
succeeds for every string of 1 to 64 characters. -/
theorem C2_counterexample :
    (String.mk (List.replicate 33 'é')).length = 33 ∧
    ClientId.try_from (String.mk (List.replicate 33 'é')) = .error (.TooLong 66) :=
  ⟨rfl, rfl⟩

/-- C2 amended: for every string `s` whose length, measured in UTF-8 bytes (as
by Rust `String::len()`), is between 1 and 64 inclusive, `ClientId` construction
from `s` succeeds and `as_str()` on the result returns exactly `s`. -/
theorem C2_valid_construct_as_str (s : String)
    (h1 : 1 ≤ rustStrLen s) (h2 : rustStrLen s ≤ 64) :
    ∃ c, ClientId.try_from s = .ok c ∧ c.as_str = s :=
  ⟨⟨s⟩, (ClientId.try_from_ok_iff s ⟨s⟩).mpr ⟨h1, h2, rfl⟩, rfl⟩

/-- Witness for the amended C2 at `"my-order-123"`. -/
theorem C2_witness :
    ∃ c, ClientId.try_from "my-order-123" = .ok c ∧ c.as_str = "my-order-123" :=
  C2_valid_construct_as_str "my-order-123" (by decide) (by decide)

/-- C10: constructing a `ClientId` via `TryFrom<&str>` gives the same result as
constructing it via `TryFrom<String>` from the same text. -/
theorem C10_try_from_str_agrees (s : String) :
    ClientId.try_from_str s = ClientId.try_from s := rfl

/-- Deserializing a plain string value runs construction on the string and maps
any validation error through `custom` with its message text. -/
theorem ClientId.deserialize_str (s : String) :
    ClientId.deserialize (.str s) =
      match ClientId.try_from s with
      | .ok c => Except.ok c
      | .error e => Except.error (.custom e.message) := rfl

/-- C3: deserializing a `ClientId` reads a plain string and applies the same
length validation as construction — it succeeds exactly when the (byte) length
is between 1 and 64 — and on validation failure the deserialization error is
`custom` carrying the validation error's message text; in particular the empty
string and a 65-character string are rejected. -/
theorem C3_deserialize_validates (s : String) :
    ((∃ c, ClientId.deserialize (.str s) = .ok c) ↔
      1 ≤ rustStrLen s ∧ rustStrLen s ≤ 64) ∧
    (∀ e, ClientId.try_from s = .error e →
      ClientId.deserialize (.str s) = .error (.custom e.message)) ∧
    (∀ c, ClientId.deserialize (.str "") ≠ .ok c) ∧
    (∀ c, ClientId.deserialize (.str (String.mk (List.replicate 65 'a'))) ≠ .ok c) := by
  refine ⟨⟨fun ⟨c, hc⟩ => ?_, fun h => ?_⟩, fun e he => ?_, fun c hc => ?_, fun c hc => ?_⟩
  · rw [ClientId.deserialize_str] at hc
    cases htf : ClientId.try_from s with
    | ok d =>
        have hd := (ClientId.try_from_ok_iff s d).mp htf
        exact ⟨hd.1, hd.2.1⟩
    | error e => rw [htf] at hc; cases hc
  · refine ⟨⟨s⟩, ?_⟩
    rw [ClientId.deserialize_str, (ClientId.try_from_ok_iff s ⟨s⟩).mpr ⟨h.1, h.2, rfl⟩]
  · rw [ClientId.deserialize_str, he]
  · rw [ClientId.deserialize_str,
      (ClientId.try_from_tooShort_iff "" 0).mpr (by decide)] at hc
    cases hc
  · rw [ClientId.deserialize_str,
      (ClientId.try_from_tooLong_iff (String.mk (List.replicate 65 'a')) 65).mpr
        (by decide)] at hc
    cases hc

/-- Witness for C3: deserializing the empty string yields the `custom` error
carrying the `TooShort` message text. -/
theorem C3_witness :
    ClientId.deserialize (.str "") =
      .error (.custom (ClientIdValidationError.TooShort 0).message) :=
  (C3_deserialize_validates "").2.1 (.TooShort 0) rfl

/-- C4: serde round-trip — for every string `s` from which a `ClientId` is
successfully constructed, deserializing its serialized form yields back an
equal `ClientId`. -/
theorem C4_serde_round_trip (s : String) (c : ClientId)
    (h : ClientId.try_from s = .ok c) :
    ClientId.deserialize (ClientId.serialize c) = .ok c := by
  obtain ⟨h1, h2, rfl⟩ := (ClientId.try_from_ok_iff s c).mp h
  rw [show ClientId.serialize ⟨s⟩ = .str s from rfl, ClientId.deserialize_str, h]

/-- Witness for C4 at `"serialize-test"`. -/
theorem C4_witness :
    ClientId.deserialize (ClientId.serialize ⟨"serialize-test"⟩) =
      .ok ⟨"serialize-test"⟩ :=
  C4_serde_round_trip "serialize-test" ⟨"serialize-test"⟩ rfl

/-- C5: for every string `s` from which a `ClientId` is successfully
constructed, `into_inner()` returns exactly `s`, and so does the
`From<ClientId> for String` conversion. -/
theorem C5_into_inner_round_trip (s : String) (c : ClientId)
    (h : ClientId.try_from s = .ok c) :
    c.into_inner = s ∧ stringFromClientId c = s := by
  obtain ⟨-, -, rfl⟩ := (ClientId.try_from_ok_iff s c).mp h
  exact ⟨rfl, rfl⟩

/-- Witness for C5 at `"test-id"`. -/
theorem C5_witness :
    ClientId.into_inner ⟨"test-id"⟩ = "test-id" ∧
    stringFromClientId ⟨"test-id"⟩ = "test-id" :=
  C5_into_inner_round_trip "test-id" ⟨"test-id"⟩ rfl

/-- C6: equality on `ClientId` is structural over the wrapped string — two
successfully constructed `ClientId`s are equal exactly when the strings they
were constructed from are equal. -/
theorem C6_structural_equality (s t : String) (c d : ClientId)
    (hc : ClientId.try_from s = .ok c) (hd : ClientId.try_from t = .ok d) :
    c = d ↔ s = t := by
  obtain ⟨-, -, rfl⟩ := (ClientId.try_from_ok_iff s c).mp hc
  obtain ⟨-, -, rfl⟩ := (ClientId.try_from_ok_iff t d).mp hd
  exact ⟨fun h => congrArg ClientId.val h, fun h => by rw [h]⟩

/-- Witness for C6: construction from `"x"` twice yields equal values, and
construction from `"x"` and `"y"` yields unequal values. -/
theorem C6_witness :
    ((⟨"x"⟩ : ClientId) = ⟨"x"⟩) ∧ ¬((⟨"x"⟩ : ClientId) = ⟨"y"⟩) :=
  ⟨(C6_structural_equality "x" "x" ⟨"x"⟩ ⟨"x"⟩ rfl rfl).mpr rfl,
   fun h => absurd ((C6_structural_equality "x" "y" ⟨"x"⟩ ⟨"y"⟩ rfl rfl).mp h)
     (by decide)⟩

/-- C7: every valid `ClientId` serializes as the bare underlying string with no
wrapper envelope — its serialized form equals the serialized form of its
wrapped string value. -/
theorem C7_serializes_bare (s : String) (c : ClientId)
    (_h : ClientId.try_from s = .ok c) :
    ClientId.serialize c = serializeString c.val := rfl

/-- Witness for C7 at `"serialize-test"`. -/
theorem C7_witness :
    ClientId.serialize ⟨"serialize-test"⟩ = serializeString "serialize-test" :=
  C7_serializes_bare "serialize-test" ⟨"serialize-test"⟩ rfl

/-- C9: the `ClientId` length bounds are measured in UTF-8 bytes, not in
characters — the string of 33 two-byte characters `'é'` has only 33 characters
yet is rejected as `TooLong` — and the `len` reported in `TooShort` / `TooLong`
errors is always the byte length. -/
theorem C9_length_in_bytes :
    ((String.mk (List.replicate 33 'é')).length ≤ 64 ∧
      64 < rustStrLen (String.mk (List.replicate 33 'é')) ∧
      ClientId.try_from (String.mk (List.replicate 33 'é')) =
        .error (.TooLong (rustStrLen (String.mk (List.replicate 33 'é'))))) ∧
    (∀ s n, ClientId.try_from s = .error (.TooShort n) → n = rustStrLen s) ∧
    (∀ s n, ClientId.try_from s = .error (.TooLong n) → n = rustStrLen s) := by
  refine ⟨⟨by decide, by decide, rfl⟩, fun s n h => ?_, fun s n h => ?_⟩
  · exact ((ClientId.try_from_tooShort_iff s n).mp h).2
  · exact ((ClientId.try_from_tooLong_iff s n).mp h).2

/-- Witness for C9: the reported lengths at the empty string and at 65 copies
of `'a'` are their byte lengths. -/
theorem C9_witness :
    (0 : ℕ) = rustStrLen "" ∧
    (65 : ℕ) = rustStrLen (String.mk (List.replicate 65 'a')) :=
  ⟨C9_length_in_bytes.2.1 "" 0 rfl,
   C9_length_in_bytes.2.2 (String.mk (List.replicate 65 'a')) 65 rfl⟩

/-- C8: `CrossLeverage` construction from a number `v` succeeds exactly when
`v` is representable as an unsigned integer (integral and non-negative) and
`MIN ≤ v ≤ MAX`; it fails with `NotAnInteger { value := v }` when the integral
check fails — this check is performed before the range checks — with `TooLow`
when integral `v < MIN`, and with `TooHigh` when integral `v > MAX`; the bounds
are assumed to form a range, `MIN ≤ MAX`. -/
theorem C8_fromNumber_spec (MIN MAX : ℕ) (hMM : MIN ≤ MAX) (v : ℚ) :
    ((∃ n, CrossLeverage.fromNumber MIN MAX v = .ok n) ↔
      (v.den = 1 ∧ 0 ≤ v.num) ∧ (MIN : ℚ) ≤ v ∧ v ≤ (MAX : ℚ)) ∧
    (¬(v.den = 1 ∧ 0 ≤ v.num) →
      CrossLeverage.fromNumber MIN MAX v = .error (.NotAnInteger v)) ∧
    (v.den = 1 → 0 ≤ v.num → v < (MIN : ℚ) →
      CrossLeverage.fromNumber MIN MAX v = .error (.TooLow v.num.toNat)) ∧
    (v.den = 1 → 0 ≤ v.num → (MAX : ℚ) < v →
      CrossLeverage.fromNumber MIN MAX v = .error (.TooHigh v.num.toNat)) := by
  by_cases hint : v.den = 1 ∧ 0 ≤ v.num
  case neg =>
    have he : CrossLeverage.fromNumber MIN MAX v = .error (.NotAnInteger v) := by
      unfold CrossLeverage.fromNumber; rw [if_neg hint]
    refine ⟨⟨?_, ?_⟩, fun _ => he, fun h1 h2 _ => absurd ⟨h1, h2⟩ hint,
      fun h1 h2 _ => absurd ⟨h1, h2⟩ hint⟩
    · rintro ⟨n, hn⟩
      rw [he] at hn; cases hn
    · intro h
      exact absurd h.1 hint
  case pos =>
    obtain ⟨hden, hpos⟩ := hint
    have hv : ((v.num : ℚ)) = v := Rat.coe_int_num_of_den_eq_one hden
    have hminq : ((MIN : ℚ) ≤ v) ↔ ((MIN : ℤ) ≤ v.num) := by
      rw [← hv]; constructor <;> intro h <;> exact_mod_cast h
    have hmaxq : (v ≤ (MAX : ℚ)) ↔ (v.num ≤ (MAX : ℤ)) := by
      rw [← hv]; constructor <;> intro h <;> exact_mod_cast h
    have hfm : CrossLeverage.fromNumber MIN MAX v =
        (if v.num.toNat < MIN then .error (.TooLow v.num.toNat)
         else if v.num.toNat > MAX then .error (.TooHigh v.num.toNat)
         else .ok v.num.toNat) := by
      unfold CrossLeverage.fromNumber; rw [if_pos ⟨hden, hpos⟩]
    refine ⟨⟨?_, ?_⟩, fun habs => absurd ⟨hden, hpos⟩ habs, ?_, ?_⟩
    · rintro ⟨n, hn⟩
      rw [hfm] at hn
      split_ifs at hn with h1 h2
      exact ⟨⟨hden, hpos⟩, hminq.mpr (by omega), hmaxq.mpr (by omega)⟩
    · rintro ⟨-, hge', hle'⟩
      have hge := hminq.mp hge'
      have hle := hmaxq.mp hle'
      refine ⟨v.num.toNat, ?_⟩
      rw [hfm, if_neg (by omega), if_neg (by omega)]
    · intro _ _ hlt
      have h1 : v.num < (MIN : ℤ) := by
        rw [← not_le] at hlt ⊢
        exact fun hc => hlt (hminq.mpr hc)
      rw [hfm, if_pos (by omega)]
    · intro _ _ hgt
      have h2 : (MAX : ℤ) < v.num := by
        rw [← not_le] at hgt ⊢
        exact fun hc => hgt (hmaxq.mpr hc)
      rw [hfm, if_neg (by omega), if_pos (by omega)]

/-- Witness for C8 with `MIN = 1`, `MAX = 100`: `3.5` (as the exact rational
`7/2`) is rejected as `NotAnInteger`, `3` is accepted, `1` is rejected as
`TooLow` under `MIN = 2`, and `101` is rejected as `TooHigh`. -/
theorem C8_witness :
    CrossLeverage.fromNumber 1 100 (mkRat 7 2) =
      .error (.NotAnInteger (mkRat 7 2)) ∧
    (∃ n, CrossLeverage.fromNumber 1 100 (mkRat 3 1) = .ok n) ∧
    CrossLeverage.fromNumber 2 100 (mkRat 1 1) = .error (.TooLow 1) ∧
    CrossLeverage.fromNumber 1 100 (mkRat 101 1) = .error (.TooHigh 101) :=
  ⟨(C8_fromNumber_spec 1 100 (by decide) (mkRat 7 2)).2.1 (by decide),
   (C8_fromNumber_spec 1 100 (by decide) (mkRat 3 1)).1.mpr ⟨by decide, by decide, by decide⟩,
   (C8_fromNumber_spec 2 100 (by decide) (mkRat 1 1)).2.2.1 (by decide) (by decide) (by decide),
   (C8_fromNumber_spec 1 100 (by decide) (mkRat 101 1)).2.2.2 (by decide) (by decide) (by decide)⟩
